import Mathlib

/-!
Verification development for the `extra::synch` synchronized-value header:
the capability classifier (`detail` concepts and `detail::proxy_mutex`
dispatch), the RAII guard `synch_lock_guard`, the synchronized value
`synch<T, M>`, and the multi-lock coordinator (`extra::wlock` /
`extra::try_wlock` built on `std::lock` / `std::try_lock`).

The C++ is embedded shallowly:
- a lock-primitive type `M` is represented by the compile-time shape of its
  shared-side members (`MutexShape`); the `detail` concepts become Boolean
  predicates over that shape;
- each `detail::proxy_mutex` function is represented by the mutex member
  operation it resolves to (`MOp`), exactly mirroring the `requires`-based
  overload selection in the source;
- the runtime state of a primitive is a reader/writer state (`RWState`)
  with the usual shared/exclusive acquisition semantics; blocking
  acquisition is modelled by its post-acquisition effect (the wait itself
  is outside a sequential embedding), timed waits by an oracle Boolean
  giving the primitive's reported outcome;
- guards are pairs of optional pointers, mirroring `mutex_` / `value_`;
  release actions are recorded as explicit event lists.
-/

namespace Extra

/-- Compile-time shape of a lock-primitive type `M`: which shared-side
members it declares. `hasLockShared` stands for declaring both
`lock_shared()` and `unlock_shared()`; `hasTryShared` for
`try_lock_shared()`; `hasTimedShared` for `try_lock_shared_for()` and
`try_lock_shared_until()`. The exclusive-side members (`lock`, `unlock`,
`try_lock`, `try_lock_for`, `try_lock_until`) are required by the fallback
overloads and are always present for the instantiations considered. -/
structure MutexShape where
  hasLockShared : Bool
  hasTryShared : Bool
  hasTimedShared : Bool
deriving DecidableEq, Fintype

namespace detail

/-- Concept `detail::basic_shared_lockable`: `M` declares `lock_shared()`
and `unlock_shared()`. -/
def basic_shared_lockable (m : MutexShape) : Bool :=
  m.hasLockShared

/-- Concept `detail::shared_lockable`: `basic_shared_lockable` and
`try_lock_shared()` returning `bool`. -/
def shared_lockable (m : MutexShape) : Bool :=
  basic_shared_lockable m && m.hasTryShared

/-- Concept `detail::shared_timed_lockable`: `shared_lockable` together
with `try_lock_shared_for` / `try_lock_shared_until`. -/
def shared_timed_lockable (m : MutexShape) : Bool :=
  shared_lockable m && m.hasTimedShared

end detail

/-- The member operation of the primitive that a `detail::proxy_mutex`
function resolves to for a given shape. -/
inductive MOp where
  | lock
  | try_lock
  | try_lock_for
  | try_lock_until
  | unlock
  | lock_shared
  | try_lock_shared
  | try_lock_shared_for
  | try_lock_shared_until
  | unlock_shared
deriving DecidableEq, Fintype

/-- Whether a member operation acts in shared (read) mode rather than
exclusive mode. -/
def MOp.isShared : MOp → Bool
  | .lock_shared => true
  | .try_lock_shared => true
  | .try_lock_shared_for => true
  | .try_lock_shared_until => true
  | .unlock_shared => true
  | _ => false

namespace proxy_mutex

/-- `detail::proxy_mutex::lock_read`: `lock_shared()` when
`basic_shared_lockable<M>`, otherwise the fallback `lock()`. -/
def lock_read (m : MutexShape) : MOp :=
  if detail.basic_shared_lockable m then .lock_shared else .lock

/-- `detail::proxy_mutex::lock_write`: always `lock()`. -/
def lock_write (_ : MutexShape) : MOp :=
  .lock

/-- `detail::proxy_mutex::try_lock_read`: `try_lock_shared()` when
`shared_lockable<M>`, otherwise the fallback `try_lock()`. -/
def try_lock_read (m : MutexShape) : MOp :=
  if detail.shared_lockable m then .try_lock_shared else .try_lock

/-- `detail::proxy_mutex::try_lock_read_for`: `try_lock_shared_for` when
`shared_timed_lockable<M>`, otherwise the fallback `try_lock_for`. -/
def try_lock_read_for (m : MutexShape) : MOp :=
  if detail.shared_timed_lockable m then .try_lock_shared_for else .try_lock_for

/-- `detail::proxy_mutex::try_lock_read_until`: `try_lock_shared_until`
when `shared_timed_lockable<M>`, otherwise the fallback `try_lock_until`. -/
def try_lock_read_until (m : MutexShape) : MOp :=
  if detail.shared_timed_lockable m then .try_lock_shared_until else .try_lock_until

/-- `detail::proxy_mutex::try_lock_write`: always `try_lock()`. -/
def try_lock_write (_ : MutexShape) : MOp :=
  .try_lock

/-- `detail::proxy_mutex::try_lock_write_for`: always `try_lock_for`. -/
def try_lock_write_for (_ : MutexShape) : MOp :=
  .try_lock_for

/-- `detail::proxy_mutex::try_lock_write_until`: always `try_lock_until`. -/
def try_lock_write_until (_ : MutexShape) : MOp :=
  .try_lock_until

/-- `detail::proxy_mutex::unlock_read`: `unlock_shared()` when
`basic_shared_lockable<M>`, otherwise the fallback `unlock()`. -/
def unlock_read (m : MutexShape) : MOp :=
  if detail.basic_shared_lockable m then .unlock_shared else .unlock

/-- `detail::proxy_mutex::unlock_write`: always `unlock()`. -/
def unlock_write (_ : MutexShape) : MOp :=
  .unlock

end proxy_mutex

/-- Runtime state of a reader/writer lock primitive: whether an exclusive
holder exists and how many shared holders exist. This is the standard
semantics of the (user-supplied, `std::shared_timed_mutex`-like) lock
primitive that `synch` embeds; the repository treats the primitive as an
opaque object with exactly this contract. -/
structure RWState where
  writer : Bool
  readers : Nat
deriving DecidableEq

/-- The value-initialized (fresh) state of a primitive: unheld. This is
the state produced by the default member initializer `mutable M mutex_{}`. -/
def defaultRW : RWState := ⟨false, 0⟩

/-- Whether an acquisition through member operation `op` can succeed in
state `s`: a shared acquisition needs no exclusive holder; an exclusive
acquisition needs no holder at all. -/
def canAcquire (op : MOp) (s : RWState) : Bool :=
  if op.isShared then !s.writer else !s.writer && s.readers == 0

/-- Non-blocking acquisition through member operation `op`: returns the
`bool` the member reports and the resulting primitive state. -/
def runTryAcq (op : MOp) (s : RWState) : Bool × RWState :=
  if canAcquire op s then
    (true, if op.isShared then ⟨false, s.readers + 1⟩ else ⟨true, 0⟩)
  else
    (false, s)

/-- State reached once a blocking acquisition through `op` has succeeded.
The wait itself is outside this sequential embedding; a blocking call
returns only ever in this post-acquisition state. -/
def runBlockAcq (op : MOp) (s : RWState) : RWState :=
  if op.isShared then ⟨false, s.readers + 1⟩ else ⟨true, 0⟩

/-- Release through member operation `op`: a shared release drops one
reader, an exclusive release clears the writer. -/
def runRelease (op : MOp) (s : RWState) : RWState :=
  if op.isShared then ⟨s.writer, s.readers - 1⟩ else ⟨false, s.readers⟩

/-- State of a `synch_lock_guard<T, M>`: its `mutex_` and `value_` pointer
members, each either null (`none`) or a pointer identity. -/
structure GuardSt where
  mutex_ : Option Nat
  value_ : Option Nat
deriving DecidableEq

/-- A release action performed on a primitive, in the mode chosen by the
guard's `unlock()`. -/
inductive RelEvent where
  | relRead : Nat → RelEvent
  | relWrite : Nat → RelEvent
deriving DecidableEq

namespace GuardSt

/-- The private constructor `synch_lock_guard(M* mutex, T* value)`: both
arguments are addresses of live members (`&mutex_`, `&value_`) at every
call site, hence non-null. -/
def mkGuard (m v : Nat) : GuardSt :=
  ⟨some m, some v⟩

/-- `synch_lock_guard::unlock()`: no-op when `mutex_` is null; otherwise
one `unlock_read` (for `const T`, i.e. a read guard) or one `unlock_write`
release on the pointed-to primitive. Returns the released actions. -/
def unlockEvents (isConst : Bool) (g : GuardSt) : List RelEvent :=
  match g.mutex_ with
  | none => []
  | some m => [if isConst then RelEvent.relRead m else RelEvent.relWrite m]

/-- The move constructor: `std::exchange` both pointers out of `other`,
leaving it null/null. Returns (new guard, source after the move). -/
def moveCtor (other : GuardSt) : GuardSt × GuardSt :=
  (⟨other.mutex_, other.value_⟩, ⟨none, none⟩)

/-- The move assignment `operator=(synch_lock_guard&&)`: when the operand
is a distinct object, first `unlock()` the destination, then exchange both
pointers out of the source; self-assignment does nothing. Returns
(destination after, source after, release actions performed). -/
def moveAssign (isConst : Bool) (dst src : GuardSt) (selfAssign : Bool) :
    GuardSt × GuardSt × List RelEvent :=
  if selfAssign then
    (dst, src, [])
  else
    (⟨src.mutex_, src.value_⟩, ⟨none, none⟩, unlockEvents isConst dst)

/-- The destructor `~synch_lock_guard()`: exactly `unlock()`. Returns the
release actions performed. -/
def dtor (isConst : Bool) (g : GuardSt) : List RelEvent :=
  unlockEvents isConst g

/-- The guard invariant: the `mutex_` pointer is null exactly when the
`value_` pointer is. -/
def nullTogether (g : GuardSt) : Prop :=
  g.mutex_ = none ↔ g.value_ = none

instance (g : GuardSt) : Decidable (nullTogether g) := by
  unfold nullTogether
  infer_instance

end GuardSt

/-- State of a `synch<T, M>` object: its protected `value_` (abstracted to
a natural number) and the runtime state of its embedded `mutex_`. The
compile-time shape of `M` is passed separately where dispatch needs it. -/
structure Synch where
  value : Nat
  mtx : RWState
deriving DecidableEq

namespace Synch

/-- `synch::rlock()`: blocking `proxy_mutex::lock_read` on `mutex_`, then a
guard over `(&mutex_, &value_)`. Blocking acquisition has no failure
outcome: the function's type returns a guard, not an optional. -/
def rlock (sh : MutexShape) (s : Synch) : GuardSt × Synch :=
  (GuardSt.mkGuard 0 0, { s with mtx := runBlockAcq (proxy_mutex.lock_read sh) s.mtx })

/-- `synch::wlock()`: blocking `proxy_mutex::lock_write` on `mutex_`, then
a guard over `(&mutex_, &value_)`. -/
def wlock (sh : MutexShape) (s : Synch) : GuardSt × Synch :=
  (GuardSt.mkGuard 0 0, { s with mtx := runBlockAcq (proxy_mutex.lock_write sh) s.mtx })

/-- `synch::try_rlock_impl()`: if `proxy_mutex::try_lock_read(mutex_)`
reports `true`, a guard; otherwise the empty optional. -/
def try_rlock_impl (sh : MutexShape) (s : Synch) : Option GuardSt × Synch :=
  let r := runTryAcq (proxy_mutex.try_lock_read sh) s.mtx
  if r.1 then (some (GuardSt.mkGuard 0 0), { s with mtx := r.2 }) else (none, s)

/-- `synch::try_wlock_impl()`: if `proxy_mutex::try_lock_write(mutex_)`
reports `true`, a guard; otherwise the empty optional. -/
def try_wlock_impl (sh : MutexShape) (s : Synch) : Option GuardSt × Synch :=
  let r := runTryAcq (proxy_mutex.try_lock_write sh) s.mtx
  if r.1 then (some (GuardSt.mkGuard 0 0), { s with mtx := r.2 }) else (none, s)

/-- Outcome and state of a timed acquisition through `op`: the primitive
reports `ok` (its bounded wait ended in acquisition or in timeout; wall
clock is abstracted to this oracle), and on success the state changes in
`op`'s mode. -/
def runTimedAcq (op : MOp) (ok : Bool) (s : RWState) : Bool × RWState :=
  if ok then (true, runBlockAcq op s) else (false, s)

/-- `synch::try_rlock_for_impl(duration)`: if
`proxy_mutex::try_lock_read_for(mutex_, duration)` reports `true`, a
guard; otherwise the empty optional. -/
def try_rlock_for_impl (sh : MutexShape) (ok : Bool) (s : Synch) :
    Option GuardSt × Synch :=
  let r := runTimedAcq (proxy_mutex.try_lock_read_for sh) ok s.mtx
  if r.1 then (some (GuardSt.mkGuard 0 0), { s with mtx := r.2 }) else (none, s)

/-- `synch::try_rlock_until_impl(time)`: if
`proxy_mutex::try_lock_read_until(mutex_, time)` reports `true`, a guard;
otherwise the empty optional. -/
def try_rlock_until_impl (sh : MutexShape) (ok : Bool) (s : Synch) :
    Option GuardSt × Synch :=
  let r := runTimedAcq (proxy_mutex.try_lock_read_until sh) ok s.mtx
  if r.1 then (some (GuardSt.mkGuard 0 0), { s with mtx := r.2 }) else (none, s)

/-- `synch::try_wlock_for_impl(duration)`: if
`proxy_mutex::try_lock_write_for(mutex_, duration)` reports `true`, a
guard; otherwise the empty optional. -/
def try_wlock_for_impl (sh : MutexShape) (ok : Bool) (s : Synch) :
    Option GuardSt × Synch :=
  let r := runTimedAcq (proxy_mutex.try_lock_write_for sh) ok s.mtx
  if r.1 then (some (GuardSt.mkGuard 0 0), { s with mtx := r.2 }) else (none, s)

/-- `synch::try_wlock_until_impl(time)`: if
`proxy_mutex::try_lock_write_until(mutex_, time)` reports `true`, a guard;
otherwise the empty optional. -/
def try_wlock_until_impl (sh : MutexShape) (ok : Bool) (s : Synch) :
    Option GuardSt × Synch :=
  let r := runTimedAcq (proxy_mutex.try_lock_write_until sh) ok s.mtx
  if r.1 then (some (GuardSt.mkGuard 0 0), { s with mtx := r.2 }) else (none, s)

/-- The copy constructor `synch(synch const&)`: initialize `value_` from
`*other.rlock()` (read acquisition on the source, copy, release of the
temporary guard at the end of the initializer), and let the default member
initializer `mutable M mutex_{}` value-initialize a fresh primitive.
Returns (new object, source after, the member operations performed on the
source's primitive). -/
def copyCtor (sh : MutexShape) (src : Synch) : Synch × Synch × List MOp :=
  let aop := proxy_mutex.lock_read sh
  let m1 := runBlockAcq aop src.mtx
  let newObj : Synch := { value := src.value, mtx := defaultRW }
  let rop := proxy_mutex.unlock_read sh
  let m2 := runRelease rop m1
  (newObj, { src with mtx := m2 }, [aop, rop])

/-- The move constructor `synch(synch&&)`: initialize `value_` from
`std::move(*other.wlock())` (write acquisition on the source, move,
release of the temporary guard), and value-initialize a fresh primitive.
Returns (new object, source after, the member operations performed on the
source's primitive). -/
def moveCtor (sh : MutexShape) (src : Synch) : Synch × Synch × List MOp :=
  let aop := proxy_mutex.lock_write sh
  let m1 := runBlockAcq aop src.mtx
  let newObj : Synch := { value := src.value, mtx := defaultRW }
  let rop := proxy_mutex.unlock_write sh
  let m2 := runRelease rop m1
  (newObj, { src with mtx := m2 }, [aop, rop])

end Synch

/-- A lock event on one of several objects (identified by an index):
acquisition or release, in write (exclusive) or read mode. -/
inductive LkEv where
  | acqW : Nat → LkEv
  | acqR : Nat → LkEv
  | relW : Nat → LkEv
  | relR : Nat → LkEv
deriving DecidableEq

/-- Whether the events `tr` contain any acquisition of object `o`. -/
def acquiredBy (tr : List LkEv) (o : Nat) : Bool :=
  tr.any fun e =>
    match e with
    | .acqW m => m == o
    | .acqR m => m == o
    | _ => false

/-- Whether object `o` is held after the events `tr` (acquired and not
released since). -/
def heldBy (tr : List LkEv) (o : Nat) : Bool :=
  tr.foldl
    (fun h e =>
      match e with
      | .acqW m => if m == o then true else h
      | .acqR m => if m == o then true else h
      | .relW m => if m == o then false else h
      | .relR m => if m == o then false else h)
    false

/-- Whether the event sequence `tr` has an observable point (a prefix) at
which one of the objects `a`, `b` is held while the other has not yet been
acquired at all — i.e. whether a proper partial acquisition of the pair is
observable. An acquisition of both as one atomic step never exhibits
such a point. -/
def loneAcqObservable (tr : List LkEv) (a b : Nat) : Bool :=
  (List.range (tr.length + 1)).any fun k =>
    (heldBy (tr.take k) a && !acquiredBy (tr.take k) b) ||
    (heldBy (tr.take k) b && !acquiredBy (tr.take k) a)

/-- A pair of `synch` objects: the destination (index 0) and the source
(index 1) of an assignment. -/
structure TwoSynch where
  dst : Synch
  src : Synch
deriving DecidableEq

/-- The copy assignment `synch::operator=(synch const&)` as written:

```cpp
if (std::addressof(other) != this) {
  std::lock_guard lock(mutex_);   // exclusive lock() on own primitive
  value_ = *other.rlock();        // then read acquisition on the source
}
```

The destination's primitive is locked exclusively by `std::lock_guard`,
then — in a second, separate step — the source's read lock is taken by
`other.rlock()`; the temporary read guard is destroyed at the end of the
full expression and the `lock_guard` at the end of the block. Returns the
resulting pair and the lock events in program order (destination = 0,
source = 1). -/
def Synch.copyAssign (sh : MutexShape) (t : TwoSynch) (selfAssign : Bool) :
    TwoSynch × List LkEv :=
  if selfAssign then
    (t, [])
  else
    let dm1 := runBlockAcq MOp.lock t.dst.mtx
    let sm1 := runBlockAcq (proxy_mutex.lock_read sh) t.src.mtx
    let v := t.src.value
    let sm2 := runRelease (proxy_mutex.unlock_read sh) sm1
    let dm2 := runRelease MOp.unlock dm1
    ({ dst := { value := v, mtx := dm2 }, src := { t.src with mtx := sm2 } },
     [LkEv.acqW 0, LkEv.acqR 1, LkEv.relR 1, LkEv.relW 0])

/-- One resource passed to the multi-lock coordinator: either a `synch`
object or a raw mutex, identified by an index. -/
inductive Resource where
  | synchRes : Nat → Resource
  | rawRes : Nat → Resource
deriving DecidableEq

/-- What the coordinator hands back for one input: `detail::adopt_lock`
wraps a `synch` in its `wlock_guard` (via `synch_access::adopt_lock`,
i.e. `wlock(std::adopt_lock)`), and a raw mutex in the caller-specified
lock-adapter `L<T>(mutex, std::adopt_lock)`. -/
inductive Adopted where
  | wguard : Nat → Adopted
  | adapter : Nat → Adopted
deriving DecidableEq

namespace detail

/-- `detail::adopt_lock`: the overload taken for each kind of argument. -/
def adopt_lock : Resource → Adopted
  | .synchRes i => .wguard i
  | .rawRes i => .adapter i

/-- The loop of `std::try_lock` (used by `detail::try_lock_all`): try-lock
the primitives in order starting at index `i`; on the first failure,
unlock everything acquired so far and report the failing index; on total
success report `none`. The Boolean per primitive is whether its `try_lock`
call succeeds; the returned list is each primitive's final
locked-by-this-call state. -/
def stdTryLockAux : List Bool → Nat → Option Nat × List Bool
  | [], _ => (none, [])
  | a :: rest, i =>
    if a then
      let r := stdTryLockAux rest (i + 1)
      (r.1, r.1.isNone :: r.2)
    else
      (some i, false :: rest.map fun _ => false)

/-- `std::try_lock` over the tied tuple of primitives, as invoked by
`detail::try_lock_all_impl`; index counting starts at 0. -/
def stdTryLock (avail : List Bool) : Option Nat × List Bool :=
  stdTryLockAux avail 0

/-- `detail::try_lock_all`: `std::try_lock(...) == -1`, i.e. success is
the absence of a failing index. -/
def try_lock_all (avail : List Bool) : Bool :=
  (stdTryLock avail).1 = none

/-- `detail::try_wlock_impl`: tie the underlying primitives
(`get_mutex_ref` on each argument), run `try_lock_all`; on failure return
the empty optional, otherwise the tuple of adopted guards built from the
arguments in their original order. Each input carries the Boolean outcome
its primitive's `try_lock` would report. Returns the result and each
primitive's final locked-by-this-call state. -/
def try_wlock_impl (rs : List (Resource × Bool)) :
    Option (List Adopted) × List Bool :=
  let r := stdTryLock (rs.map fun p => p.2)
  match r.1 with
  | some _ => (none, r.2)
  | none => (some (rs.map fun p => adopt_lock p.1), r.2)

/-- The order in which the `std::lock` protocol (used by
`detail::lock_all`) visits the primitives in one successful round: it
block-locks the primitive at index `k` first and then the others in
rotated order. `k` changes across retries and is unspecified; the
protocol's post-state does not depend on it. -/
def lockAllOrder (n k : Nat) : List Nat :=
  (List.range n).rotate k

/-- Mark the primitive at index `i` as locked. -/
def acquireAt (locked : List Bool) (i : Nat) : List Bool :=
  locked.set i true

/-- `detail::lock_all` via `std::lock`: after the protocol finishes, every
one of the `n` primitives has been acquired, whatever rotation `k` the
internal retries ended on. -/
def lock_all (n k : Nat) : List Bool :=
  (lockAllOrder n k).foldl acquireAt (List.replicate n false)

/-- `detail::wlock_impl`: tie the underlying primitives, `lock_all` them
(blocking, deadlock-avoiding, internal order `k` unspecified), then build
the tuple of adopted guards from the arguments in their original order.
Returns the result and the primitives' final locked states. -/
def wlock_impl (rs : List Resource) (k : Nat) : List Adopted × List Bool :=
  (rs.map adopt_lock, lock_all rs.length k)

end detail

/-- Specification vocabulary: the index of the first `false` in a list of
try-lock outcomes — the first primitive whose try-lock fails, in the given
order. -/
def firstFailIdx : List Bool → Option Nat
  | [] => none
  | b :: rest => if b then (firstFailIdx rest).map (· + 1) else some 0

/-! Theorems. -/

/-- C1: the claim states that for every shape the release performed by a
read guard matches the acquisition variant actually used. The code
violates this: `try_lock_read` falls back to exclusive `try_lock()`
whenever the shape is not `shared_lockable`, while `unlock_read` picks
`unlock_shared()` whenever it is `basic_shared_lockable`. At the shape
declaring `lock_shared`/`unlock_shared` but no `try_lock_shared`, the try
path acquires exclusively yet the guard releases in shared mode; at the
shape declaring shared try but no shared timed operations, the timed read
path acquires via exclusive `try_lock_for` yet the guard releases in
shared mode. -/
theorem c1_release_mode_mismatch :
    (proxy_mutex.try_lock_read ⟨true, false, false⟩ = MOp.try_lock
      ∧ proxy_mutex.unlock_read ⟨true, false, false⟩ = MOp.unlock_shared
      ∧ (proxy_mutex.unlock_read ⟨true, false, false⟩).isShared
          ≠ (proxy_mutex.try_lock_read ⟨true, false, false⟩).isShared)
    ∧ (proxy_mutex.try_lock_read_for ⟨true, true, false⟩ = MOp.try_lock_for
      ∧ proxy_mutex.unlock_read ⟨true, true, false⟩ = MOp.unlock_shared
      ∧ (proxy_mutex.unlock_read ⟨true, true, false⟩).isShared
          ≠ (proxy_mutex.try_lock_read_for ⟨true, true, false⟩).isShared) := by
  decide

/-- C4: for every primitive shape, blocking read acquisition selects the
shared lock operation exactly when the shape declares one
(`basic_shared_lockable`), and the exclusive `lock()` exactly otherwise;
blocking, try and timed write acquisition always select the exclusive
operations. -/
theorem c4_dispatch_modes :
    ∀ sh : MutexShape,
      (proxy_mutex.lock_read sh = MOp.lock_shared
        ↔ detail.basic_shared_lockable sh = true)
      ∧ (proxy_mutex.lock_read sh = MOp.lock
        ↔ detail.basic_shared_lockable sh = false)
      ∧ proxy_mutex.lock_write sh = MOp.lock
      ∧ proxy_mutex.try_lock_write sh = MOp.try_lock
      ∧ proxy_mutex.try_lock_write_for sh = MOp.try_lock_for
      ∧ proxy_mutex.try_lock_write_until sh = MOp.try_lock_until := by
  decide

/-- C5: a guard releases its lock exactly once over its lifetime. The
destructor performs a release exactly when the guard is non-empty;
move-construction transfers the held state and leaves the source empty, so
destroying both the moved-to and the moved-from guard performs exactly the
one release the original would have; move-assignment to a distinct object
first performs the destination's own release (one if it was non-empty,
none otherwise), then adopts the source's state and empties the source. -/
theorem c5_guard_single_release (g h : GuardSt) (isC : Bool) :
    ((GuardSt.dtor isC g).length = if g.mutex_.isSome then 1 else 0)
    ∧ ((GuardSt.moveCtor g).1 = ⟨g.mutex_, g.value_⟩
      ∧ (GuardSt.moveCtor g).2 = ⟨none, none⟩
      ∧ GuardSt.dtor isC (GuardSt.moveCtor g).2 = [])
    ∧ (GuardSt.dtor isC (GuardSt.moveCtor g).2
        ++ GuardSt.dtor isC (GuardSt.moveCtor g).1 = GuardSt.dtor isC g)
    ∧ ((GuardSt.moveAssign isC g h false).2.2 = GuardSt.unlockEvents isC g
      ∧ ((GuardSt.unlockEvents isC g).length = if g.mutex_.isSome then 1 else 0)
      ∧ (GuardSt.moveAssign isC g h false).1 = ⟨h.mutex_, h.value_⟩
      ∧ (GuardSt.moveAssign isC g h false).2.1 = ⟨none, none⟩) := by
  rcases g with ⟨gm, gv⟩
  rcases h with ⟨hm, hv⟩
  cases gm <;>
    simp [GuardSt.dtor, GuardSt.moveCtor, GuardSt.moveAssign, GuardSt.unlockEvents]

/-- C10: the guard invariant — `mutex_` is null exactly when `value_` is —
holds for every guard produced by the private constructor (whose arguments
are addresses of live members, hence non-null) and is preserved by
move-construction, by move-assignment (self- or not), and release is
performed exactly when the mutex pointer is non-null. -/
theorem c10_guard_null_invariant (m v : Nat) (g h : GuardSt) (isC : Bool)
    (hg : GuardSt.nullTogether g) (hh : GuardSt.nullTogether h) :
    GuardSt.nullTogether (GuardSt.mkGuard m v)
    ∧ GuardSt.nullTogether (GuardSt.moveCtor g).1
    ∧ GuardSt.nullTogether (GuardSt.moveCtor g).2
    ∧ GuardSt.nullTogether (GuardSt.moveAssign isC g h false).1
    ∧ GuardSt.nullTogether (GuardSt.moveAssign isC g h false).2.1
    ∧ GuardSt.nullTogether (GuardSt.moveAssign isC g h true).1
    ∧ GuardSt.nullTogether (GuardSt.moveAssign isC g h true).2.1
    ∧ ((GuardSt.unlockEvents isC g).length = if g.mutex_.isSome then 1 else 0) := by
  rcases g with ⟨gm, gv⟩
  rcases h with ⟨hm, hv⟩
  cases gm <;> cases gv <;>
    simp_all [GuardSt.nullTogether, GuardSt.mkGuard, GuardSt.moveCtor,
      GuardSt.moveAssign, GuardSt.unlockEvents]

/-- Witness for C10 at concrete guards: both hypotheses hold for
freshly-constructed guards, and the conclusion then applies. -/
theorem c10_guard_null_invariant_witness :
    GuardSt.nullTogether (GuardSt.mkGuard 2 3)
    ∧ GuardSt.nullTogether
        (GuardSt.moveCtor (GuardSt.mkGuard 0 1)).2 :=
  ⟨(c10_guard_null_invariant 2 3 (GuardSt.mkGuard 0 1) (GuardSt.mkGuard 4 5)
      true (by decide) (by decide)).1,
   (c10_guard_null_invariant 2 3 (GuardSt.mkGuard 0 1) (GuardSt.mkGuard 4 5)
      true (by decide) (by decide)).2.2.1⟩

/-- C6: each try/timed acquisition produces a present guard exactly when
the selected underlying try operation reports `true`, and the empty
optional otherwise; blocking `rlock`/`wlock` return a (live) guard
unconditionally — their types admit no failure outcome, and none of the
operations has an exception path (all are total functions returning
data). -/
theorem c6_try_presence (sh : MutexShape) (s : Synch) (ok : Bool) :
    ((Synch.try_rlock_impl sh s).1.isSome
      = (runTryAcq (proxy_mutex.try_lock_read sh) s.mtx).1)
    ∧ ((Synch.try_wlock_impl sh s).1.isSome
      = (runTryAcq (proxy_mutex.try_lock_write sh) s.mtx).1)
    ∧ ((Synch.try_rlock_for_impl sh ok s).1.isSome
      = (Synch.runTimedAcq (proxy_mutex.try_lock_read_for sh) ok s.mtx).1)
    ∧ ((Synch.try_rlock_until_impl sh ok s).1.isSome
      = (Synch.runTimedAcq (proxy_mutex.try_lock_read_until sh) ok s.mtx).1)
    ∧ ((Synch.try_wlock_for_impl sh ok s).1.isSome
      = (Synch.runTimedAcq (proxy_mutex.try_lock_write_for sh) ok s.mtx).1)
    ∧ ((Synch.try_wlock_until_impl sh ok s).1.isSome
      = (Synch.runTimedAcq (proxy_mutex.try_lock_write_until sh) ok s.mtx).1)
    ∧ ((Synch.rlock sh s).1 = GuardSt.mkGuard 0 0)
    ∧ ((Synch.wlock sh s).1 = GuardSt.mkGuard 0 0) := by
  refine ⟨?_, ?_, ?_, ?_, ?_, ?_, rfl, rfl⟩ <;>
    simp only [Synch.try_rlock_impl, Synch.try_wlock_impl,
      Synch.try_rlock_for_impl, Synch.try_rlock_until_impl,
      Synch.try_wlock_for_impl, Synch.try_wlock_until_impl] <;>
    split <;> simp_all

/-- C8: copy construction reads the source under a read lock
(`lock_read` then `unlock_read` on the source's primitive), copies the
value, and the new object's primitive is the value-initialized fresh state
`defaultRW` — independent of the source's primitive state, which is never
copied; move construction does the same under a write lock
(`lock_write` then `unlock_write`). -/
theorem c8_ctor_fresh_primitive (sh : MutexShape) (src : Synch) :
    ((Synch.copyCtor sh src).1.mtx = defaultRW)
    ∧ ((Synch.copyCtor sh src).1.value = src.value)
    ∧ ((Synch.copyCtor sh src).2.2
      = [proxy_mutex.lock_read sh, proxy_mutex.unlock_read sh])
    ∧ ((Synch.moveCtor sh src).1.mtx = defaultRW)
    ∧ ((Synch.moveCtor sh src).1.value = src.value)
    ∧ ((Synch.moveCtor sh src).2.2
      = [proxy_mutex.lock_write sh, proxy_mutex.unlock_write sh]) :=
  ⟨rfl, rfl, rfl, rfl, rfl, rfl⟩

/-- C9: mutual-exclusion semantics of the dispatched operations. While a
write guard is held (the primitive has an exclusive holder), no read or
write acquisition — through whichever operation the classifier selects for
the shape — can succeed. While a read guard is held on a shared-capable
shape (the primitive has shared holders), no write acquisition can
succeed, yet a further blocking read acquisition can. -/
theorem c9_guard_exclusion (sh : MutexShape) (s : RWState) :
    (s.writer = true →
      canAcquire (proxy_mutex.lock_read sh) s = false
      ∧ canAcquire (proxy_mutex.try_lock_read sh) s = false
      ∧ canAcquire (proxy_mutex.lock_write sh) s = false
      ∧ canAcquire (proxy_mutex.try_lock_write sh) s = false)
    ∧ (0 < s.readers →
      canAcquire (proxy_mutex.lock_write sh) s = false
      ∧ canAcquire (proxy_mutex.try_lock_write sh) s = false)
    ∧ (0 < s.readers → s.writer = false → detail.basic_shared_lockable sh = true →
      canAcquire (proxy_mutex.lock_read sh) s = true) := by
  rcases s with ⟨w, r⟩
  rcases sh with ⟨a, b, c⟩
  cases w <;> cases a <;> cases b <;> cases c <;>
    simp_all [canAcquire, proxy_mutex.lock_read, proxy_mutex.try_lock_read,
      proxy_mutex.lock_write, proxy_mutex.try_lock_write,
      detail.basic_shared_lockable, detail.shared_lockable, MOp.isShared] <;>
    omega

/-- Witness for C9: with a writer holding the primitive, no acquisition
succeeds; with one reader on the fully shared-capable shape, writes are
excluded and reads are not. -/
theorem c9_guard_exclusion_witness :
    (canAcquire (proxy_mutex.lock_write ⟨true, true, true⟩) ⟨true, 0⟩ = false)
    ∧ (canAcquire (proxy_mutex.lock_write ⟨true, true, true⟩) ⟨false, 1⟩ = false)
    ∧ (canAcquire (proxy_mutex.lock_read ⟨true, true, true⟩) ⟨false, 1⟩ = true) :=
  ⟨((c9_guard_exclusion ⟨true, true, true⟩ ⟨true, 0⟩).1 rfl).2.2.1,
   ((c9_guard_exclusion ⟨true, true, true⟩ ⟨false, 1⟩).2.1 (by decide)).1,
   (c9_guard_exclusion ⟨true, true, true⟩ ⟨false, 1⟩).2.2 (by decide) rfl rfl⟩

/-- The failing index reported by the `std::try_lock` loop is the first
input whose try-lock fails, offset by the starting index. -/
theorem stdTryLockAux_fst (l : List Bool) :
    ∀ i, (detail.stdTryLockAux l i).1 = (firstFailIdx l).map (· + i) := by
  induction l with
  | nil => intro i; simp [detail.stdTryLockAux, firstFailIdx]
  | cons a rest ih =>
    intro i
    cases a
    · simp [detail.stdTryLockAux, firstFailIdx]
    · simp only [detail.stdTryLockAux, firstFailIdx, if_true]
      rw [ih (i + 1), Option.map_map]
      cases firstFailIdx rest <;> simp [Function.comp] <;> omega

/-- The loop reports no failing index exactly when every try-lock
succeeds. -/
theorem firstFailIdx_eq_none (l : List Bool) :
    firstFailIdx l = none ↔ l.all id = true := by
  induction l with
  | nil => simp [firstFailIdx]
  | cons a rest ih =>
    cases a <;> simp [firstFailIdx, ih]

/-- After the `std::try_lock` loop, either every primitive is locked (on
total success) or every primitive is unlocked (on any failure). -/
theorem stdTryLockAux_snd (l : List Bool) :
    ∀ i, (detail.stdTryLockAux l i).2
      = if l.all id then l.map (fun _ => true) else l.map (fun _ => false) := by
  induction l with
  | nil => intro i; simp [detail.stdTryLockAux]
  | cons a rest ih =>
    intro i
    cases a
    · simp [detail.stdTryLockAux]
    · simp only [detail.stdTryLockAux, if_true]
      rw [ih (i + 1), stdTryLockAux_fst rest (i + 1)]
      rcases hf : firstFailIdx rest with _ | j
      · have hall := (firstFailIdx_eq_none rest).mp hf
        simp [hall]
      · have hall : rest.all id = false := by
          rcases hr : rest.all id with _ | _
          · rfl
          · rw [(firstFailIdx_eq_none rest).mpr hr] at hf
            cases hf
        simp [hall]

/-- The try-lock outcomes of the tied primitives, checked all at once or
projected per input, agree. -/
theorem all_map_snd (rs : List (Resource × Bool)) :
    (rs.map fun p => p.2).all id = rs.all fun p => p.2 := by
  induction rs with
  | nil => rfl
  | cons a rest ih =>
    simp only [List.map_cons, List.all_cons, ih]
    rfl

/-- C3: the try-variant multi-lock is all-or-nothing over a single pass in
the given order. If every primitive's try-lock succeeds, the result is
present and contains one adopted guard per input in the original order
(`wlock_guard` for a `synch` input, the adapter for a raw mutex), with
every primitive locked; if any try-lock fails, the result is absent and no
primitive remains locked; the failing attempt reported by the underlying
`std::try_lock` pass is the first failing input in the given order. -/
theorem c3_try_wlock_all_or_nothing (rs : List (Resource × Bool)) :
    ((detail.try_wlock_impl rs).1
      = if rs.all (fun p => p.2) then some (rs.map fun p => detail.adopt_lock p.1)
        else none)
    ∧ ((detail.try_wlock_impl rs).2 = rs.map fun _ => rs.all fun p => p.2)
    ∧ ((detail.stdTryLock (rs.map fun p => p.2)).1
      = firstFailIdx (rs.map fun p => p.2)) := by
  have hfst : (detail.stdTryLock (rs.map fun p => p.2)).1
      = firstFailIdx (rs.map fun p => p.2) := by
    rw [detail.stdTryLock, stdTryLockAux_fst]
    cases firstFailIdx (rs.map fun p => p.2) <;> simp
  have hsnd := stdTryLockAux_snd (rs.map fun p => p.2) 0
  have hall := all_map_snd rs
  refine ⟨?_, ?_, hfst⟩
  · rw [detail.try_wlock_impl]
    rcases hr : (detail.stdTryLock (rs.map fun p => p.2)).1 with _ | j
    · rw [hr] at hfst
      have := (firstFailIdx_eq_none _).mp hfst.symm
      rw [hall] at this
      simp [hr, this]
    · rw [hr] at hfst
      have hne : firstFailIdx (rs.map fun p => p.2) ≠ none := by
        rw [← hfst]; exact Option.some_ne_none j
      have : ¬ ((rs.map fun p => p.2).all id = true) := fun hc =>
        hne ((firstFailIdx_eq_none _).mpr hc)
      rw [hall] at this
      simp [hr, this]
  · have h2 : (detail.try_wlock_impl rs).2 = (detail.stdTryLock (rs.map fun p => p.2)).2 := by
      rw [detail.try_wlock_impl]
      rcases hr : (detail.stdTryLock (rs.map fun p => p.2)).1 with _ | j <;> simp [hr]
    rw [h2, detail.stdTryLock, hsnd, hall]
    rcases rs.all fun p => p.2 <;> simp [List.map_map, Function.comp]

/-- Folding acquisitions preserves the number of primitives. -/
theorem foldl_acquireAt_length (order : List Nat) :
    ∀ locked : List Bool, (order.foldl detail.acquireAt locked).length = locked.length := by
  induction order with
  | nil => intro locked; rfl
  | cons a rest ih =>
    intro locked
    rw [List.foldl_cons, ih, detail.acquireAt, List.length_set]

/-- A primitive already acquired stays acquired through further
acquisitions. -/
theorem foldl_acquireAt_mono (order : List Nat) :
    ∀ (locked : List Bool) (i : Nat), locked.get? i = some true →
      (order.foldl detail.acquireAt locked).get? i = some true := by
  induction order with
  | nil => intro _ _ h; exact h
  | cons a rest ih =>
    intro locked i h
    rw [List.foldl_cons]
    refine ih _ i ?_
    by_cases hai : a = i
    · subst hai
      have hlt : a < locked.length := by
        by_contra hge
        rw [List.get?_eq_none.mpr (Nat.le_of_not_lt hge)] at h
        cases h
      rw [detail.acquireAt, List.get?_set_eq_of_lt _ hlt]
    · rw [detail.acquireAt, List.get?_set_ne _ _ hai]
      exact h

/-- Every primitive visited by the protocol ends up acquired. -/
theorem foldl_acquireAt_mem (order : List Nat) :
    ∀ (locked : List Bool) (i : Nat), i ∈ order → i < locked.length →
      (order.foldl detail.acquireAt locked).get? i = some true := by
  induction order with
  | nil => intro _ _ h _; cases h
  | cons a rest ih =>
    intro locked i hmem hlen
    rw [List.foldl_cons]
    rcases List.mem_cons.mp hmem with h | h
    · subst h
      exact foldl_acquireAt_mono rest _ i
        (by rw [detail.acquireAt, List.get?_set_eq_of_lt _ hlen])
    · exact ih _ i h (by rw [detail.acquireAt, List.length_set]; exact hlen)

/-- `std::lock` acquires all `n` primitives whatever rotation its internal
retries ended on. -/
theorem lock_all_get (n k i : Nat) (h : i < n) :
    (detail.lock_all n k).get? i = some true := by
  refine foldl_acquireAt_mem _ _ _ ?_ ?_
  · rw [detail.lockAllOrder, List.mem_rotate, List.mem_range]
    exact h
  · rw [List.length_replicate]
    exact h

/-- C7: the blocking multi-lock returns one adopted guard per input, in
the caller's original argument order (the `i`-th output adopts the `i`-th
input, a `synch` input yielding its `wlock_guard` and a raw mutex input
yielding the caller-specified adapter), independently of the internal
retry rotation `k` of the `std::lock` protocol; and every underlying
primitive is acquired on return. -/
theorem c7_wlock_original_order (rs : List Resource) (k : Nat) :
    ((detail.wlock_impl rs k).1.length = rs.length)
    ∧ (∀ i, (detail.wlock_impl rs k).1.get? i = (rs.get? i).map detail.adopt_lock)
    ∧ ((detail.wlock_impl rs k).1 = (detail.wlock_impl rs 0).1)
    ∧ ((detail.wlock_impl rs k).2.length = rs.length)
    ∧ (∀ i, i < rs.length → (detail.wlock_impl rs k).2.get? i = some true) := by
  refine ⟨by simp [detail.wlock_impl], fun i => ?_, rfl, ?_, fun i h => ?_⟩
  · rw [detail.wlock_impl]
    exact List.get?_map detail.adopt_lock rs i
  · rw [detail.wlock_impl]
    show (detail.lock_all rs.length k).length = rs.length
    rw [detail.lock_all, foldl_acquireAt_length, List.length_replicate]
  · exact lock_all_get rs.length k i h

/-- Witness for C7 at a concrete argument list and a nonzero rotation. -/
theorem c7_wlock_original_order_witness :
    (detail.wlock_impl [Resource.synchRes 5, Resource.rawRes 9] 1).2.get? 0 = some true :=
  (c7_wlock_original_order [Resource.synchRes 5, Resource.rawRes 9] 1).2.2.2.2 0
    (by decide)

/-- C2 (counterexample): the claim states that copy assignment acquires
the destination's write lock and the source's read lock as a single atomic
step through the multi-lock coordinator, with no partial acquisition of
the two locks observable. On the code's actual event sequence — for the
default `std::shared_timed_mutex` shape and concrete objects — a point
with the destination's lock held and the source's lock not yet acquired is
observable: the acquisitions are sequential, not atomic. -/
theorem c2_partial_acquisition_observable :
    loneAcqObservable
      (Synch.copyAssign ⟨true, true, true⟩
        ⟨⟨0, defaultRW⟩, ⟨7, defaultRW⟩⟩ false).2 0 1 = true := by
  decide

/-- C2 (amended): copy assignment to a distinct object locks the
destination's primitive exclusively (`std::lock_guard`), then — in a
separate, second step, not through the multi-lock coordinator — acquires
the source's read lock, copies the value across, and releases in reverse
order; a point with the destination locked and the source not yet acquired
is observable. Self-assignment is a no-op. -/
theorem c2_copy_assign_amended (sh : MutexShape) (t : TwoSynch) :
    ((Synch.copyAssign sh t false).1.dst.value = t.src.value)
    ∧ ((Synch.copyAssign sh t false).2
      = [LkEv.acqW 0, LkEv.acqR 1, LkEv.relR 1, LkEv.relW 0])
    ∧ (loneAcqObservable (Synch.copyAssign sh t false).2 0 1 = true)
    ∧ ((Synch.copyAssign sh t true).1 = t)
    ∧ ((Synch.copyAssign sh t true).2 = []) := by
  refine ⟨rfl, rfl, ?_, rfl, rfl⟩
  show loneAcqObservable [LkEv.acqW 0, LkEv.acqR 1, LkEv.relR 1, LkEv.relW 0] 0 1 = true
  decide

end Extra
